import Mathlib

/- Shallow embedding of the ducklake-bootstrap repository:
   `src/bootstrap_ducklake.py` (config resolution, secret / attach SQL
   generation, TPC-H bulk load) and `src/run_tpch_queries.py` (the
   cross-engine TPC-H validation loop).  Python strings are Lean
   `String`s, Python `None`-able strings are `Option String`, numeric
   cell values are rationals, and exception-raising code is modelled
   with `Except`. -/

/-- Python truthiness of an optional string: `None` and `""` are falsy. -/
def pyTruthy : Option String → Bool
  | none => false
  | some s => decide (s ≠ "")

/-- Python `a or b` on optional strings: yields `a` when `a` is truthy,
otherwise `b` (models `os.getenv("MINIO_SECRET_KEY") or
os.getenv("MINIO_SECRET_ACCESS_KEY")`). -/
def pyOrStr (a b : Option String) : Option String :=
  if pyTruthy a then a else b

/-- Python `s.strip("/")`: remove all leading and trailing slash
characters. -/
def stripSlashes (s : String) : String :=
  String.mk (((s.data.dropWhile fun c => c == '/').reverse.dropWhile fun c => c == '/').reverse)

/-- Python `str.replace` on character lists: replace every
(non-overlapping, left-to-right) occurrence of `pat` by `rep`. -/
def replaceList (pat rep : List Char) : List Char → List Char
  | [] => []
  | c :: cs =>
    if pat ≠ [] ∧ pat <+: (c :: cs) then
      rep ++ replaceList pat rep (List.drop (pat.length - 1) cs)
    else
      c :: replaceList pat rep cs
termination_by l => l.length
decreasing_by
  all_goals simp only [List.length_drop, List.length_cons]
  all_goals omega

/-- Python `s.replace(pat, rep)` on strings. -/
def pyReplace (s pat rep : String) : String :=
  String.mk (replaceList pat.data rep.data s.data)

/-- `self.endpoint.replace('http://','').replace('https://','')` from
`StorageMinIO.create_secret_sql` (and the identical expression in
`open_ducklake`): every occurrence of either scheme string is removed. -/
def stripScheme (e : String) : String :=
  pyReplace (pyReplace e "http://" "") "https://" ""

/-- A string containing neither brace character.  On brace-free field
values Python's `str.format` is plain placeholder substitution; on a
stray brace it instead raises `ValueError` (or rewrites a further
placeholder), so every theorem about a generated statement carries
`braceFree` hypotheses confining it to the substitution domain. -/
@[reducible]
def braceFree (s : String) : Prop :=
  '{' ∉ s.data ∧ '}' ∉ s.data

/-- Python `s.format(name=name)` on the substitution domain: substitute
every occurrence of the placeholder `{name}` by `name`.  The source
only ever formats with the single keyword `name`, and the theorems
below restrict the embedded fields with `braceFree`, since on a stray
brace Python raises instead of returning a string. -/
def formatName (s name : String) : String :=
  String.mk (replaceList ("{name}").data name.data s.data)

/-- Python `sep.join(parts)`. -/
def joinSep (sep : String) : List String → String
  | [] => ""
  | [x] => x
  | x :: y :: xs => x ++ sep ++ joinSep sep (y :: xs)

/- ------------------------------------------------------------------
   bootstrap_ducklake.py : config model
   ------------------------------------------------------------------ -/

/-- The `StorageMinIO` dataclass of `bootstrap_ducklake.py`.  The field
`pfx` renders the source's bucket-key-prefix field (whose source name is
a reserved word here); `access_key` and `secret_key` are optional
exactly as in the dataclass. -/
structure StorageMinio where
  bucket : String
  pfx : String
  endpoint : String
  region : String
  access_key : Option String
  secret_key : Option String
  use_ssl : Bool
  url_style : String
deriving DecidableEq, Repr

/-- `StorageMinIO.data_path`: trim slashes off the key prefix; if the
trimmed prefix is non-empty the data root is
`s3://{bucket}/{trimmed}/`, otherwise `s3://{bucket}/`. -/
def StorageMinio.data_path (st : StorageMinio) : String :=
  let p := stripSlashes st.pfx
  if p ≠ "" then "s3://" ++ st.bucket ++ "/" ++ p ++ "/"
  else "s3://" ++ st.bucket ++ "/"

/-- `StorageMinIO.create_secret_sql`: build the parts list (the key pair
is embedded only when both credentials are truthy), join with newlines,
then apply `.format(name=name)` to the joined string. -/
def create_secret_sql (st : StorageMinio) (name : String) : String :=
  let parts : List String :=
    ["CREATE OR REPLACE SECRET {name} (",
     "  TYPE S3,"]
    ++ (if pyTruthy st.access_key && pyTruthy st.secret_key then
          ["  KEY_ID '" ++ st.access_key.getD "" ++ "',",
           "  SECRET '" ++ st.secret_key.getD "" ++ "',"]
        else [])
    ++ ["  ENDPOINT '" ++ stripScheme st.endpoint ++ "',",
        "  URL_STYLE '" ++ st.url_style ++ "',",
        "  USE_SSL " ++ (if st.use_ssl then "true" else "false") ++ ",",
        "  REGION '" ++ st.region ++ "'",
        ");"]
  formatName (joinSep "\n" parts) name

/-- The lines of the generated secret statement after the opening line,
for a config whose credentials are both truthy — used to state what
`create_secret_sql` evaluates to. -/
def secretTail (st : StorageMinio) : List String :=
  ["  TYPE S3,",
   "  KEY_ID '" ++ st.access_key.getD "" ++ "',",
   "  SECRET '" ++ st.secret_key.getD "" ++ "',",
   "  ENDPOINT '" ++ stripScheme st.endpoint ++ "',",
   "  URL_STYLE '" ++ st.url_style ++ "',",
   "  USE_SSL " ++ (if st.use_ssl then "true" else "false") ++ ",",
   "  REGION '" ++ st.region ++ "'",
   ");"]

/-- The `storage:` section of the YAML config dictionary as consumed by
`AppConfig.from_dict`: each field is `some v` when the key is present in
the dictionary and `none` when absent. -/
structure StorageDict where
  bucket : Option String
  pfx : Option String
  endpoint : Option String
  region : Option String
  access_key : Option String
  secret_key : Option String
  use_ssl : Option Bool
  url_style : Option String
deriving DecidableEq, Repr

/-- The three environment variables read by `AppConfig.from_dict`
(`os.getenv` yields `None` when the variable is unset). -/
structure EnvVars where
  minio_access_key : Option String
  minio_secret_key : Option String
  minio_secret_access_key : Option String
deriving DecidableEq, Repr

/-- Error message raised by `AppConfig.from_dict` for a missing access
key. -/
def akMissingMsg : String :=
  "storage.access_key is required but was not provided in config or environment variables"

/-- Error message raised by `AppConfig.from_dict` for a missing secret
key. -/
def skMissingMsg : String :=
  "storage.secret_key is required but was not provided in config or environment variables"

/-- The access-key resolution inside `AppConfig.from_dict`:
`st.get("access_key", os.getenv("MINIO_ACCESS_KEY"))` — the config
value when the key is present in the dictionary, else the environment
variable. -/
def resolved_access_key (sd : StorageDict) (env : EnvVars) : Option String :=
  match sd.access_key with
  | some v => some v
  | none => env.minio_access_key

/-- The secret-key resolution inside `AppConfig.from_dict`:
`st.get("secret_key", os.getenv("MINIO_SECRET_KEY") or
os.getenv("MINIO_SECRET_ACCESS_KEY"))`. -/
def resolved_secret_key (sd : StorageDict) (env : EnvVars) : Option String :=
  match sd.secret_key with
  | some v => some v
  | none => pyOrStr env.minio_secret_key env.minio_secret_access_key

/-- The storage part of `AppConfig.from_dict`: build the `StorageMinIO`
record (config value when the key is present, else the environment
fallback, with the documented defaults for the other fields), then
validate that both resolved credentials are truthy, raising
`ValueError` otherwise.  This is pure config resolution: it runs before
any engine or network interaction. -/
def from_dict_storage (sd : StorageDict) (env : EnvVars) : Except String StorageMinio :=
  if pyTruthy (resolved_access_key sd env) = false then Except.error akMissingMsg
  else if pyTruthy (resolved_secret_key sd env) = false then Except.error skMissingMsg
  else Except.ok
    { bucket := sd.bucket.getD "ducklake-data"
      pfx := sd.pfx.getD "tpch/"
      endpoint := sd.endpoint.getD "http://localhost:9000"
      region := sd.region.getD "us-east-1"
      access_key := resolved_access_key sd env
      secret_key := resolved_secret_key sd env
      use_ssl := sd.use_ssl.getD false
      url_style := sd.url_style.getD "path" }

/- ------------------------------------------------------------------
   bootstrap_ducklake.py : engine-side statement semantics
   ------------------------------------------------------------------ -/

/-- Engine-visible session state touched by the bootstrap statements:
the set of named secrets, the attached catalog aliases, and the active
namespace selected by `USE`. -/
structure EngineState where
  secrets : List String
  attached : List String
  current : Option String
deriving DecidableEq, Repr

/-- `CREATE OR REPLACE SECRET name (...)`: replaces an existing secret
of the same name or creates it; by the engine's replace-if-exists
semantics it never fails. -/
def execCreateOrReplaceSecret (n : String) (st : EngineState) : EngineState :=
  { st with secrets := if n ∈ st.secrets then st.secrets else n :: st.secrets }

/-- `ATTACH ... AS a`: the statement issued by the source carries no
IF-NOT-EXISTS guard, so per the engine's documented semantics it fails
when the alias is already attached in this session, and otherwise adds
the alias. -/
def execAttach (a : String) (st : EngineState) : Except String EngineState :=
  if a ∈ st.attached then
    Except.error ("database with name \x22" ++ a ++ "\x22 already exists")
  else
    Except.ok { st with attached := a :: st.attached }

/-- `DETACH DATABASE a`: removes an attached alias, failing when the
alias is not attached. -/
def execDetach (a : String) (st : EngineState) : Except String EngineState :=
  if a ∈ st.attached then
    Except.ok { st with attached := st.attached.erase a }
  else
    Except.error ("database with name \x22" ++ a ++ "\x22 not found")

/-- `USE a`: selects an attached alias as the active namespace, failing
when the alias is unknown. -/
def execUse (a : String) (st : EngineState) : Except String EngineState :=
  if a ∈ st.attached then
    Except.ok { st with current := some a }
  else
    Except.error ("database with name \x22" ++ a ++ "\x22 not found")

/-- `attach_ducklake`: ensure the MinIO secret (CREATE OR REPLACE, never
fails), then `ATTACH` the lakehouse under the configured alias, then
`USE` it.  Directory creation for the metadata file is local-filesystem
work with no engine-visible effect and is not modelled. -/
def attach_ducklake (al : String) (st : EngineState) : Except String EngineState :=
  match execAttach al (execCreateOrReplaceSecret "minio" st) with
  | Except.error e => Except.error e
  | Except.ok st2 => execUse al st2

/-- External conditions of one `generate_tpch_and_load` run: whether the
cached dataset file already exists, whether the download would succeed,
and whether the bulk `COPY FROM DATABASE` would succeed. -/
structure IngestEnv where
  localExists : Bool
  downloadOk : Bool
  copyOk : Bool
deriving DecidableEq, Repr

/-- `generate_tpch_and_load`: download the cached dataset when missing
(a failed download raises before any engine interaction), `ATTACH` it
as the transient alias `tpch_src`, bulk-copy every table into the
lakehouse alias (table contents are not modelled; only success/failure
matters here), and `DETACH DATABASE tpch_src` as the final statement of
the straight-line body.  An error carries the engine state at the point
where the exception escapes. -/
def generate_tpch_and_load (env : IngestEnv) (st : EngineState) :
    Except (String × EngineState) EngineState :=
  if !env.localExists && !env.downloadOk then
    Except.error ("download failed", st)
  else
    match execAttach "tpch_src" st with
    | Except.error e => Except.error (e, st)
    | Except.ok st1 =>
      if env.copyOk then
        match execDetach "tpch_src" st1 with
        | Except.error e => Except.error (e, st1)
        | Except.ok st2 => Except.ok st2
      else
        Except.error ("copy failed", st1)

/- ------------------------------------------------------------------
   run_tpch_queries.py : validator-side config handling
   ------------------------------------------------------------------ -/

/-- `open_ducklake`'s access-key resolution:
`cfg['storage'].get('access_key', 'minioadmin')` — a plain dictionary
default, with no environment fallback and no failure path. -/
def od_access_key (sd : StorageDict) : String :=
  sd.access_key.getD "minioadmin"

/-- `open_ducklake`'s secret-key resolution:
`cfg['storage'].get('secret_key', 'minioadmin')`. -/
def od_secret_key (sd : StorageDict) : String :=
  sd.secret_key.getD "minioadmin"

/-- `open_ducklake`'s data root:
`f"s3://{cfg['storage']['bucket']}/{cfg['storage']['prefix']}"` — raw
concatenation, with no trimming and no added trailing slash. -/
def od_data_path (bucket p : String) : String :=
  "s3://" ++ bucket ++ "/" ++ p

/- ------------------------------------------------------------------
   run_tpch_queries.py : tabular results and classification
   ------------------------------------------------------------------ -/

/-- A tabular query result (`pandas.DataFrame` from `fetch_df`), stored
column-wise: each entry pairs a column name with that column's values.
Numeric cell values are modelled as rationals.  Engines produce
rectangular frames (every column has the same length). -/
structure DataFrame where
  cols : List (String × List ℚ)
deriving DecidableEq, Repr

/-- `list(df.columns)`: the column-name sequence, in order. -/
def DataFrame.columns (df : DataFrame) : List String :=
  df.cols.map Prod.fst

/-- `len(df)`: the number of rows (length of the first column, `0` for a
frame with no columns). -/
def DataFrame.nrows (df : DataFrame) : Nat :=
  match df.cols with
  | [] => 0
  | c :: _ => c.2.length

/-- Insert a named column into a name-sorted column list, keeping
original order among equal names. -/
def insertCol (c : String × List ℚ) : List (String × List ℚ) → List (String × List ℚ)
  | [] => [c]
  | d :: ds => if c.1 ≤ d.1 then c :: d :: ds else d :: insertCol c ds

/-- `df.sort_index(axis=1)`: sort the columns by name (stable insertion
sort; with both frames holding the same name sequence, any
deterministic sort applies the same rearrangement to both). -/
def sortColsList : List (String × List ℚ) → List (String × List ℚ)
  | [] => []
  | c :: cs => insertCol c (sortColsList cs)

/-- Absolute value of a rational, written as the source's runtime
computes it. -/
def pyAbs (q : ℚ) : ℚ :=
  if q < 0 then -q else q

/-- The per-value tolerance check of `pd.testing.assert_frame_equal`
with `atol=1e-6` and the default `rtol=1e-5`
(`math.isclose(a, b, rel_tol=1e-5, abs_tol=1e-6)`):
`|a - b| <= max(rel_tol * max(|a|, |b|), abs_tol)`. -/
def isCloseQ (a b : ℚ) : Bool :=
  decide (pyAbs (a - b) ≤ max ((1 / 100000 : ℚ) * max (pyAbs a) (pyAbs b)) (1 / 1000000))

/-- Tolerance comparison of two value columns: pairwise `isCloseQ`, and
the lengths must agree. -/
def valuesClose : List ℚ → List ℚ → Bool
  | [], [] => true
  | a :: as, b :: bs => isCloseQ a b && valuesClose as bs
  | _, _ => false

/-- Tolerance comparison of two column lists: the name sequences must
agree position-wise and every value pair must be within tolerance. -/
def colsClose : List (String × List ℚ) → List (String × List ℚ) → Bool
  | [], [] => true
  | c :: cs, d :: ds => decide (c.1 = d.1) && valuesClose c.2 d.2 && colsClose cs ds
  | _, _ => false

/-- The classification block of `validate_tpch` (first matching rule
wins): order-sensitive column-name mismatch, then row-count mismatch
(reference count first in the message), then the tolerance comparison of
the name-sorted frames (`assert_frame_equal` with `atol=1e-6`,
`check_dtype=False`, `check_like=True`; an `AssertionError` is recorded
as "Data mismatch"), else a match with empty reason. -/
def classify (dfRef dfDl : DataFrame) : Bool × String :=
  if dfRef.columns ≠ dfDl.columns then
    (false, "Column mismatch")
  else if dfRef.nrows ≠ dfDl.nrows then
    (false, "Row count mismatch (" ++ toString dfRef.nrows ++ " vs " ++ toString dfDl.nrows ++ ")")
  else if colsClose (sortColsList dfRef.cols) (sortColsList dfDl.cols) then
    (true, "")
  else
    (false, "Data mismatch")

/- ------------------------------------------------------------------
   run_tpch_queries.py : the validation loop
   ------------------------------------------------------------------ -/

/-- `f"Q{q:02d}"`: the query label, zero-padded to two digits. -/
def qLabel (q : Nat) : String :=
  let s := toString q
  "Q" ++ (if s.length < 2 then "0" ++ s else s)

/-- One summary row (`{"query": ..., "match": ..., "reason": ...}`; the
source's `match` key is rendered as `matched`). -/
structure ValidationResult where
  query : String
  matched : Bool
  reason : String
deriving DecidableEq, Repr

/-- The pair of CSV dumps written for query `q` on a classification
mismatch (`q{q:02d}_ref.csv` / `q{q:02d}_ducklake.csv`). -/
structure Artifact where
  qnum : Nat
  refDump : DataFrame
  lakeDump : DataFrame
deriving DecidableEq, Repr

/-- The two engine sessions as the loop body sees them: fetching the
canonical query text for an id from `tpch_queries()` (outside the `try`
block in the source), and executing a SQL text on the reference /
lakehouse side (each including its preceding `USE` statement).  An
`Except.error` carries the exception text. -/
structure QueryEnv where
  fetchQuery : Nat → Except String String
  runRef : String → Except String DataFrame
  runLake : String → Except String DataFrame

/-- The body of the `try` block up to classification: run the text on
the reference engine, then on the lakehouse engine. -/
def execBoth (env : QueryEnv) (sql : String) : Except String (DataFrame × DataFrame) :=
  match env.runRef sql with
  | Except.error e => Except.error e
  | Except.ok dfRef =>
    match env.runLake sql with
    | Except.error e => Except.error e
    | Except.ok dfDl => Except.ok (dfRef, dfDl)

/-- One iteration of the validation loop for query id `q`: the canonical
query text is fetched outside the `try` block, so a fetch failure
propagates; any exception inside the `try` block (reference or lakehouse
execution) becomes a summary row with `matched := false` and the
exception text as reason; a successful classification yields its row,
plus the pair of CSV dumps exactly when the classification mismatched. -/
def validateQuery (env : QueryEnv) (q : Nat) :
    Except String (ValidationResult × Option Artifact) :=
  match env.fetchQuery q with
  | Except.error e => Except.error e
  | Except.ok sql =>
    match execBoth env sql with
    | Except.error e =>
      Except.ok ({ query := qLabel q, matched := false, reason := e }, none)
    | Except.ok (dfRef, dfDl) =>
      let c := classify dfRef dfDl
      Except.ok ({ query := qLabel q, matched := c.1, reason := c.2 },
        if c.1 then none else some { qnum := q, refDump := dfRef, lakeDump := dfDl })

/-- The validation loop over a list of query ids, in order: summary rows
and mismatch artifacts accumulate in request order; an uncaught
exception (query-text fetch failure) aborts the remainder. -/
def validate_go (env : QueryEnv) : List Nat → Except String (List ValidationResult × List Artifact)
  | [] => Except.ok ([], [])
  | q :: rest =>
    match validateQuery env q with
    | Except.error e => Except.error e
    | Except.ok (r, a) =>
      match validate_go env rest with
      | Except.error e => Except.error e
      | Except.ok (rs, arts) =>
        Except.ok (r :: rs, match a with
          | none => arts
          | some x => x :: arts)

/-- `validate_tpch`: an empty (`None`) id list defaults to `1..22`. -/
def validate_tpch (env : QueryEnv) (queryIds : List Nat) :
    Except String (List ValidationResult × List Artifact) :=
  validate_go env (if queryIds.isEmpty then (List.range 22).map (fun n => n + 1) else queryIds)

/- ------------------------------------------------------------------
   Concrete instances used by the counterexamples and witnesses
   ------------------------------------------------------------------ -/

/-- A config dictionary with every storage key absent. -/
def sdNone : StorageDict := ⟨none, none, none, none, none, none, none, none⟩

/-- An environment with none of the three credential variables set. -/
def envNone : EnvVars := ⟨none, none, none⟩

/-- A config dictionary carrying explicit credentials. -/
def sdWithKeys : StorageDict := { sdNone with access_key := some "AK", secret_key := some "SK" }

/-- An environment carrying both credential variables. -/
def envWithKeys : EnvVars := ⟨some "EK", some "ES", none⟩

/-- The storage record `from_dict` produces for `sdWithKeys` with an
empty environment. -/
def stFromKeys : StorageMinio :=
  { bucket := "ducklake-data", pfx := "tpch/", endpoint := "http://localhost:9000",
    region := "us-east-1", access_key := some "AK", secret_key := some "SK",
    use_ssl := false, url_style := "path" }

/-- The storage record `from_dict` produces for an empty dictionary and
`envWithKeys`. -/
def stFromEnv : StorageMinio :=
  { bucket := "ducklake-data", pfx := "tpch/", endpoint := "http://localhost:9000",
    region := "us-east-1", access_key := some "EK", secret_key := some "ES",
    use_ssl := false, url_style := "path" }

/-- A storage config whose endpoint contains a non-leading scheme
occurrence. -/
def stScheme : StorageMinio :=
  { bucket := "b", pfx := "p", endpoint := "myhttp://host", region := "us-east-1",
    access_key := some "ak", secret_key := some "sk", use_ssl := false,
    url_style := "path" }

/-- A two-column frame with columns `[a, b]`. -/
def dfAB : DataFrame := ⟨[("a", [(1 : ℚ)]), ("b", [(2 : ℚ)])]⟩

/-- The same data as `dfAB` with the columns in the order `[b, a]`. -/
def dfBA : DataFrame := ⟨[("b", [(2 : ℚ)]), ("a", [(1 : ℚ)])]⟩

/-- A session pair whose query-text fetch always raises. -/
def envFetchBoom : QueryEnv :=
  { fetchQuery := fun _ => Except.error "boom"
    runRef := fun _ => Except.ok ⟨[]⟩
    runLake := fun _ => Except.ok ⟨[]⟩ }

/-- A session pair whose reference-side execution always raises. -/
def envRefBoom : QueryEnv :=
  { fetchQuery := fun _ => Except.ok "select 1"
    runRef := fun _ => Except.error "ref blew up"
    runLake := fun _ => Except.ok ⟨[]⟩ }

/-- A session pair producing a column-order mismatch for every query. -/
def envMismatch : QueryEnv :=
  { fetchQuery := fun _ => Except.ok "q1"
    runRef := fun _ => Except.ok dfAB
    runLake := fun _ => Except.ok dfBA }

/-- Whether the loop body for query id `q` got through both engine
executions, so that any `matched = false` outcome for `q` is a
classification (shape/data) mismatch rather than an execution error. -/
def execsSucceeded (env : QueryEnv) (q : Nat) : Bool :=
  match env.fetchQuery q with
  | Except.error _ => false
  | Except.ok sql =>
    match execBoth env sql with
    | Except.error _ => false
    | Except.ok _ => true

/-- Reference result holding one row, `revenue = 100.000001`. -/
def dfRevRef : DataFrame := ⟨[("revenue", [(100000001 : ℚ) / 1000000])]⟩

/-- Lakehouse result holding one row, `revenue = 100.0000009`. -/
def dfRevDl : DataFrame := ⟨[("revenue", [(1000000009 : ℚ) / 10000000])]⟩

/- ------------------------------------------------------------------
   Helper lemmas
   ------------------------------------------------------------------ -/

theorem pyAbs_eq_abs (q : ℚ) : pyAbs q = |q| := by
  by_cases h : q < 0
  · rw [pyAbs, if_pos h, abs_of_neg h]
  · rw [pyAbs, if_neg h, abs_of_nonneg (le_of_not_lt h)]

theorem isCloseQ_refl (a : ℚ) : isCloseQ a a = true := by
  simp only [isCloseQ, decide_eq_true_eq, sub_self]
  calc pyAbs 0 = 0 := by rw [pyAbs_eq_abs, abs_zero]
    _ ≤ (1 / 1000000 : ℚ) := by norm_num
    _ ≤ _ := le_max_right _ _

theorem isCloseQ_of_tol (a b : ℚ) (h : |a - b| ≤ 1 / 1000000) : isCloseQ a b = true := by
  simp only [isCloseQ, decide_eq_true_eq, pyAbs_eq_abs]
  exact le_trans h (le_max_right _ _)

theorem valuesClose_refl (l : List ℚ) : valuesClose l l = true := by
  induction l with
  | nil => rfl
  | cons a as ih => simp [valuesClose, isCloseQ_refl, ih]

theorem colsClose_refl (l : List (String × List ℚ)) : colsClose l l = true := by
  induction l with
  | nil => rfl
  | cons c cs ih => simp [colsClose, valuesClose_refl, ih]

theorem valuesClose_of_forall (l1 l2 : List ℚ)
    (h : List.Forall₂ (fun a b : ℚ => |a - b| ≤ 1 / 1000000) l1 l2) :
    valuesClose l1 l2 = true := by
  induction h with
  | nil => rfl
  | cons hab _ ih => simp [valuesClose, isCloseQ_of_tol _ _ hab, ih]

theorem colsClose_of_forall (l1 l2 : List (String × List ℚ))
    (h : List.Forall₂ (fun c d => c.1 = d.1 ∧
      List.Forall₂ (fun a b : ℚ => |a - b| ≤ 1 / 1000000) c.2 d.2) l1 l2) :
    colsClose l1 l2 = true := by
  induction h with
  | nil => rfl
  | cons hcd _ ih => simp [colsClose, hcd.1, valuesClose_of_forall _ _ hcd.2, ih]

/- ------------------------------------------------------------------
   C2 : classification rule order
   ------------------------------------------------------------------ -/

/-- C2 (confirmed): `classify` applies its rules in order with the first
matching rule winning — when the column-name sequences differ
(order-sensitively) the result is `(false, "Column mismatch")`
regardless of the row counts, and otherwise when the row counts differ
the result is `(false, "Row count mismatch (a vs b)")` with the
reference engine's count first. -/
theorem c2_classify_rule_order (dfRef dfDl : DataFrame) :
    (dfRef.columns ≠ dfDl.columns → classify dfRef dfDl = (false, "Column mismatch")) ∧
    (dfRef.columns = dfDl.columns → dfRef.nrows ≠ dfDl.nrows →
      classify dfRef dfDl =
        (false, "Row count mismatch (" ++ toString dfRef.nrows ++ " vs "
          ++ toString dfDl.nrows ++ ")")) := by
  constructor
  · intro h
    simp [classify, h]
  · intro hc hr
    simp [classify, hc, hr]

/-- Witness for C2: a column-order difference with identical data is a
"Column mismatch" even though the row counts agree, and a pure
row-count difference reports the reference count first. -/
theorem c2_classify_rule_order_witness :
    classify dfAB dfBA = (false, "Column mismatch") ∧
    classify ⟨[("a", [1, 2, 3, 4, 5])]⟩ ⟨[("a", [1, 2, 3, 4, 5, 6, 7])]⟩ =
      (false, "Row count mismatch (5 vs 7)") :=
  ⟨(c2_classify_rule_order dfAB dfBA).1 (by decide),
   (c2_classify_rule_order _ _).2 (by decide) (by decide)⟩

/- ------------------------------------------------------------------
   C8 : tolerance comparison
   ------------------------------------------------------------------ -/

/-- C8 (confirmed): when the column-name sequences and row counts agree,
the data comparison counts the frames as matching (`matched = true`,
empty reason) whenever every pair of corresponding values differs by at
most `1e-6` — the comparison runs `assert_frame_equal` with
`atol = 1e-6` and relaxed dtype checking, whose per-value acceptance
threshold is at least `1e-6`.  In particular a frame always matches
itself. -/
theorem c8_tolerance_match :
    (∀ df : DataFrame, classify df df = (true, "")) ∧
    (∀ dfRef dfDl : DataFrame, dfRef.columns = dfDl.columns → dfRef.nrows = dfDl.nrows →
      List.Forall₂ (fun c d => c.1 = d.1 ∧
          List.Forall₂ (fun a b : ℚ => |a - b| ≤ 1 / 1000000) c.2 d.2)
        (sortColsList dfRef.cols) (sortColsList dfDl.cols) →
      classify dfRef dfDl = (true, "")) := by
  constructor
  · intro df
    simp [classify, colsClose_refl]
  · intro dfRef dfDl hc hr hf
    simp [classify, hc, hr, colsClose_of_forall _ _ hf]

/-- Witness for C8: a frame matches itself, and the single-row pair
`100.000001` vs `100.0000009` is within tolerance. -/
theorem c8_tolerance_match_witness :
    classify dfRevRef dfRevRef = (true, "") ∧ classify dfRevRef dfRevDl = (true, "") :=
  ⟨c8_tolerance_match.1 dfRevRef,
   c8_tolerance_match.2 dfRevRef dfRevDl rfl rfl
     (List.Forall₂.cons
       ⟨rfl, List.Forall₂.cons (by rw [abs_of_pos (by norm_num)]; norm_num) List.Forall₂.nil⟩
       List.Forall₂.nil)⟩

/- ------------------------------------------------------------------
   C6 : bootstrap data root
   ------------------------------------------------------------------ -/

/-- C6 (confirmed): for every `(bucket, prefix)` pair the bootstrap data
root is `s3://{bucket}/{trimmed}/` when the prefix is non-empty after
trimming the slash separators, and `s3://{bucket}/` when it trims to
empty; in particular an empty prefix gives `s3://{bucket}/` and the
prefix `"/a/"` gives `s3://{bucket}/a/`. -/
theorem c6_data_path_spec (st : StorageMinio) :
    (st.pfx = "" → st.data_path = "s3://" ++ st.bucket ++ "/") ∧
    (st.pfx = "/a/" → st.data_path = "s3://" ++ st.bucket ++ "/a/") ∧
    (stripSlashes st.pfx = "" → st.data_path = "s3://" ++ st.bucket ++ "/") ∧
    (stripSlashes st.pfx ≠ "" →
      st.data_path = "s3://" ++ st.bucket ++ "/" ++ stripSlashes st.pfx ++ "/") := by
  have h0 : stripSlashes "" = "" := by decide
  have ha : stripSlashes "/a/" = "a" := by decide
  refine ⟨?_, ?_, ?_, ?_⟩
  · intro h
    simp [StorageMinio.data_path, h, h0]
  · intro h
    simp only [StorageMinio.data_path, h, ha]
    norm_num
    simp [String.append_assoc]
  · intro h
    simp [StorageMinio.data_path, h]
  · intro h
    simp [StorageMinio.data_path, h]

/-- Witness for C6 at a concrete bucket and the two quoted prefixes. -/
theorem c6_data_path_spec_witness :
    ({ stFromKeys with pfx := "" } : StorageMinio).data_path = "s3://ducklake-data/" ∧
    ({ stFromKeys with pfx := "/a/" } : StorageMinio).data_path = "s3://ducklake-data/a/" ∧
    ({ stFromKeys with pfx := "tpch/" } : StorageMinio).data_path = "s3://ducklake-data/tpch/" :=
  ⟨(c6_data_path_spec _).1 rfl,
   (c6_data_path_spec _).2.1 rfl,
   (c6_data_path_spec _).2.2.2 (by decide)⟩

/- ------------------------------------------------------------------
   C10 : validator data root vs bootstrap data root
   ------------------------------------------------------------------ -/

/-- C10 (counterexample): the validator's raw concatenation and the
bootstrap's trimmed, slash-terminated computation are NOT equal as
functions of `(bucket, prefix)` — they already differ at the ordinary
prefix `"tpch"`, where `open_ducklake` produces
`s3://ducklake-data/tpch` and the bootstrap produces
`s3://ducklake-data/tpch/`. -/
theorem c10_data_path_counterexample :
    od_data_path "ducklake-data" "tpch" ≠
      ({ stFromKeys with pfx := "tpch" } : StorageMinio).data_path := by
  decide

theorem data_path_of_strip_empty (st : StorageMinio) (h : stripSlashes st.pfx = "") :
    st.data_path = "s3://" ++ st.bucket ++ "/" := by
  simp [StorageMinio.data_path, h]

theorem data_path_of_strip_ne (st : StorageMinio) (h : stripSlashes st.pfx ≠ "") :
    st.data_path = "s3://" ++ st.bucket ++ "/" ++ stripSlashes st.pfx ++ "/" := by
  simp [StorageMinio.data_path, h]

/-- C10 (amended): the validator's raw concatenation
`s3://{bucket}/{prefix}` agrees with the bootstrap's trimmed,
slash-terminated computation exactly on the well-formed prefixes —
those that are empty, or already of the trimmed form followed by a
single trailing slash (such as the default `"tpch/"`); on every other
prefix the two data roots differ. -/
theorem c10_data_path_agree (st : StorageMinio) :
    od_data_path st.bucket st.pfx = st.data_path ↔
      (st.pfx = "" ∨ (stripSlashes st.pfx ≠ "" ∧ st.pfx = stripSlashes st.pfx ++ "/")) := by
  constructor
  · intro h
    by_cases ht : stripSlashes st.pfx = ""
    · rw [data_path_of_strip_empty st ht] at h
      unfold od_data_path at h
      have hd := congrArg String.data h
      simp only [String.data_append] at hd
      simp only [List.append_assoc] at hd
      have h2 := List.append_cancel_left (List.append_cancel_left hd)
      have hnil : st.pfx.data = [] :=
        List.append_cancel_left
          (show ("/" : String).data ++ st.pfx.data = ("/" : String).data ++ [] by
            rw [List.append_nil]; exact h2)
      left
      apply String.ext
      rw [hnil]
    · rw [data_path_of_strip_ne st ht] at h
      unfold od_data_path at h
      have hd := congrArg String.data h
      simp only [String.data_append] at hd
      simp only [List.append_assoc] at hd
      have h3 := List.append_cancel_left (List.append_cancel_left (List.append_cancel_left hd))
      right
      refine ⟨ht, ?_⟩
      apply String.ext
      rw [String.data_append]
      exact h3
  · intro h
    rcases h with h | ⟨h1, h2⟩
    · have h0 : stripSlashes "" = "" := by decide
      simp [od_data_path, StorageMinio.data_path, h, h0]
    · simp only [od_data_path, StorageMinio.data_path, h1, if_pos, ne_eq,
        not_false_iff, if_true]
      conv_lhs => rw [h2]
      simp [String.append_assoc]

/-- Witness for C10's amended statement: the two data roots agree at the
default well-formed prefix `"tpch/"` and differ at the ill-formed
prefix `"/a/"`. -/
theorem c10_data_path_agree_witness :
    od_data_path "ducklake-data" "tpch/" = (stFromKeys : StorageMinio).data_path ∧
    od_data_path "ducklake-data" "/a/" ≠
      ({ stFromKeys with pfx := "/a/" } : StorageMinio).data_path :=
  ⟨(c10_data_path_agree stFromKeys).mpr (by decide),
   fun h => absurd ((c10_data_path_agree { stFromKeys with pfx := "/a/" }).mp h) (by decide)⟩

/- ------------------------------------------------------------------
   C4 : credential resolution
   ------------------------------------------------------------------ -/

/-- C4 (counterexample): the precedence-and-fail-fast contract does NOT
hold on every path that opens a session.  The bootstrap's config
resolution does fail fast when the access key is absent from both
sources, but the validator's `open_ducklake` — the session opener named
by the claim — resolves absent credentials to the hard-coded default
`"minioadmin"` without consulting the environment and without any
failure path. -/
theorem c4_credentials_counterexample :
    od_access_key sdNone = "minioadmin" ∧
    od_secret_key sdNone = "minioadmin" ∧
    from_dict_storage sdNone envNone = Except.error akMissingMsg := by
  exact ⟨rfl, rfl, rfl⟩

/-- C4 (amended): in the bootstrap's `AppConfig.from_dict` the
precedence "explicit config value, else environment variable, else
fail" holds and a missing access key fails during pure config
resolution, before any engine or network interaction; the validator's
`open_ducklake`, however, substitutes the default `"minioadmin"` for
absent keys and never fails. -/
theorem c4_credentials_amended (sd : StorageDict) (env : EnvVars) :
    (sd.access_key = none → env.minio_access_key = none →
      from_dict_storage sd env = Except.error akMissingMsg) ∧
    (∀ v st, sd.access_key = some v → from_dict_storage sd env = Except.ok st →
      st.access_key = some v) ∧
    (∀ v st, sd.access_key = none → env.minio_access_key = some v →
      from_dict_storage sd env = Except.ok st → st.access_key = some v) := by
  refine ⟨?_, ?_, ?_⟩
  · intro h1 h2
    simp [from_dict_storage, resolved_access_key, h1, h2, pyTruthy]
  · intro v st h1 hok
    unfold from_dict_storage at hok
    split at hok
    · exact absurd hok (by simp)
    · split at hok
      · exact absurd hok (by simp)
      · injection hok with hst
        rw [← hst]
        simp [resolved_access_key, h1]
  · intro v st h1 h2 hok
    unfold from_dict_storage at hok
    split at hok
    · exact absurd hok (by simp)
    · split at hok
      · exact absurd hok (by simp)
      · injection hok with hst
        rw [← hst]
        simp [resolved_access_key, h1, h2]

/-- Witness for C4's amended statement: absence from both sources fails
fast, an explicit config value wins, and the environment variable is
used as the fallback. -/
theorem c4_credentials_amended_witness :
    from_dict_storage sdNone envNone = Except.error akMissingMsg ∧
    stFromKeys.access_key = some "AK" ∧
    stFromEnv.access_key = some "EK" :=
  ⟨(c4_credentials_amended sdNone envNone).1 rfl rfl,
   (c4_credentials_amended sdWithKeys envNone).2.1 "AK" stFromKeys rfl rfl,
   (c4_credentials_amended sdNone envWithKeys).2.2 "EK" stFromEnv rfl rfl rfl⟩

/- ------------------------------------------------------------------
   C3 : transient attachment cleanup
   ------------------------------------------------------------------ -/

/-- C3 (counterexample): the transient `tpch_src` attachment is NOT
detached on every exit path — when the bulk copy fails, the function
propagates the exception with `tpch_src` still attached (the source has
no try/finally around the copy). -/
theorem c3_detach_counterexample :
    generate_tpch_and_load ⟨true, true, false⟩ ⟨[], [], none⟩ =
      Except.error ("copy failed", ⟨[], ["tpch_src"], none⟩) ∧
    "tpch_src" ∈ (⟨[], ["tpch_src"], none⟩ : EngineState).attached := by
  exact ⟨rfl, by decide⟩

/-- C3 (amended): when the bulk copy succeeds the transient `tpch_src`
attachment is detached before `generate_tpch_and_load` returns, but
when the copy fails the exception escapes with `tpch_src` still
attached — cleanup is guaranteed on the success path only. -/
theorem c3_detach_amended (env : IngestEnv) (st : EngineState)
    (hs : "tpch_src" ∉ st.attached)
    (hdl : env.localExists = true ∨ env.downloadOk = true) :
    (env.copyOk = true →
      ∃ st2, generate_tpch_and_load env st = Except.ok st2 ∧
        "tpch_src" ∉ st2.attached) ∧
    (env.copyOk = false →
      ∃ st1, generate_tpch_and_load env st = Except.error ("copy failed", st1) ∧
        "tpch_src" ∈ st1.attached) := by
  have hguard : (!env.localExists && !env.downloadOk) = false := by
    rcases hdl with h | h <;> simp [h]
  have hatt : execAttach "tpch_src" st =
      Except.ok { st with attached := "tpch_src" :: st.attached } := by
    simp [execAttach, hs]
  constructor
  · intro hc
    refine ⟨{ st with attached := ("tpch_src" :: st.attached).erase "tpch_src" }, ?_, ?_⟩
    · simp [generate_tpch_and_load, hguard, hatt, hc, execDetach]
    · rw [List.erase_cons_head]
      exact hs
  · intro hc
    refine ⟨{ st with attached := "tpch_src" :: st.attached }, ?_, ?_⟩
    · simp [generate_tpch_and_load, hguard, hatt, hc]
    · simp

/-- Witness for C3's amended statement: from a fresh session, a
successful run ends with `tpch_src` detached, while a failing copy
leaves it attached inside the propagated error. -/
theorem c3_detach_amended_witness :
    (∃ st2, generate_tpch_and_load ⟨true, true, true⟩ ⟨[], [], none⟩ = Except.ok st2 ∧
      "tpch_src" ∉ st2.attached) ∧
    (∃ st1, generate_tpch_and_load ⟨true, true, false⟩ ⟨[], [], none⟩ =
      Except.error ("copy failed", st1) ∧ "tpch_src" ∈ st1.attached) :=
  ⟨(c3_detach_amended ⟨true, true, true⟩ ⟨[], [], none⟩ (by decide) (Or.inl rfl)).1 rfl,
   (c3_detach_amended ⟨true, true, false⟩ ⟨[], [], none⟩ (by decide) (Or.inl rfl)).2 rfl⟩

/- ------------------------------------------------------------------
   C5 : attach idempotency
   ------------------------------------------------------------------ -/

/-- C5 (counterexample): running `attach_ducklake` twice in the same
session against the same metadata path and alias DOES raise — the first
run succeeds, and the second fails at the `ATTACH` statement because the
alias is already attached and the statement carries no IF-NOT-EXISTS
guard (the secret step alone is replace-if-exists and re-runnable). -/
theorem c5_attach_counterexample :
    attach_ducklake "my_ducklake" ⟨[], [], none⟩ =
      Except.ok ⟨["minio"], ["my_ducklake"], some "my_ducklake"⟩ ∧
    attach_ducklake "my_ducklake" ⟨["minio"], ["my_ducklake"], some "my_ducklake"⟩ =
      Except.error "database with name \x22my_ducklake\x22 already exists" := by
  exact ⟨rfl, rfl⟩

/-- C5 (amended): the secret half of attach is idempotent
(`CREATE OR REPLACE SECRET` never fails and re-running it changes
nothing), but attach as a whole is not re-runnable: from any session
state where the alias is not yet attached, the first `attach_ducklake`
succeeds and an immediate second run fails with a duplicate-alias
error. -/
theorem c5_attach_amended (al : String) (st : EngineState) (h : al ∉ st.attached) :
    (∀ n s2, execCreateOrReplaceSecret n (execCreateOrReplaceSecret n s2) =
      execCreateOrReplaceSecret n s2) ∧
    (attach_ducklake al st).bind (attach_ducklake al) =
      Except.error ("database with name \x22" ++ al ++ "\x22 already exists") := by
  constructor
  · intro n s2
    by_cases hn : n ∈ s2.secrets
    · simp [execCreateOrReplaceSecret, hn]
    · simp [execCreateOrReplaceSecret, hn]
  · have h1 : attach_ducklake al st =
        Except.ok ⟨(execCreateOrReplaceSecret "minio" st).secrets, al :: st.attached, some al⟩ := by
      simp [attach_ducklake, execAttach, execCreateOrReplaceSecret, h, execUse]
    rw [h1]
    show attach_ducklake al _ = _
    simp [attach_ducklake, execAttach, execCreateOrReplaceSecret]

/-- Witness for C5's amended statement on a fresh session state. -/
theorem c5_attach_amended_witness :
    (attach_ducklake "my_ducklake" ⟨[], [], none⟩).bind (attach_ducklake "my_ducklake") =
      Except.error "database with name \x22my_ducklake\x22 already exists" :=
  (c5_attach_amended "my_ducklake" ⟨[], [], none⟩ (by decide)).2

/- ------------------------------------------------------------------
   C1 : failure isolation in the validation loop
   ------------------------------------------------------------------ -/

/-- C1 (counterexample): NOT every exception raised during steps 1-4 is
caught — the canonical-query-text fetch (step 1) sits outside the `try`
block, so a fetch failure for one id aborts validation: with ids
`[1, 2]` and a failing fetch, `validate_tpch` raises instead of
producing any summary rows, and id 2 is never validated. -/
theorem c1_isolation_counterexample :
    validate_tpch envFetchBoom [1, 2] = Except.error "boom" := by
  rfl

/-- C1 (amended): an exception raised during steps 2-4 (reference-side
execution, lakehouse-side execution) for a given id is caught and
becomes a summary row with `matched = false` and the exception text as
reason, and processing continues with the remaining ids unchanged; an
exception raised during step 1 (fetching the canonical query text),
however, is not caught and aborts validation of the remaining ids. -/
theorem c1_isolation_amended (env : QueryEnv) (q : Nat) (rest : List Nat) :
    (∀ e, env.fetchQuery q = Except.error e →
      validate_go env (q :: rest) = Except.error e) ∧
    (∀ sql e, env.fetchQuery q = Except.ok sql →
      (env.runRef sql = Except.error e ∨
        ∃ df, env.runRef sql = Except.ok df ∧ env.runLake sql = Except.error e) →
      validate_go env (q :: rest) =
        (validate_go env rest).map
          (fun p => ({ query := qLabel q, matched := false, reason := e } :: p.1, p.2))) := by
  constructor
  · intro e hf
    simp [validate_go, validateQuery, hf]
  · intro sql e hf hrun
    have hb : execBoth env sql = Except.error e := by
      rcases hrun with h | ⟨df, h1, h2⟩
      · simp [execBoth, h]
      · simp [execBoth, h1, h2]
    simp only [validate_go, validateQuery, hf, hb]
    cases hrest : validate_go env rest with
    | error e2 => simp [Except.map]
    | ok p => simp [Except.map]

/-- Witness for C1's amended statement: a failing query-text fetch
aborts the whole run, while a failing reference-side execution is
recorded and the rest of the ids still run. -/
theorem c1_isolation_amended_witness :
    validate_go envFetchBoom [1, 2] = Except.error "boom" ∧
    validate_go envRefBoom [1, 2] =
      (validate_go envRefBoom [2]).map
        (fun p => ({ query := "Q01", matched := false, reason := "ref blew up" } :: p.1, p.2)) :=
  ⟨(c1_isolation_amended envFetchBoom 1 [2]).1 "boom" rfl,
   (c1_isolation_amended envRefBoom 1 [2]).2 "select 1" "ref blew up" rfl (Or.inl rfl)⟩

/- ------------------------------------------------------------------
   C9 : mismatch artifacts
   ------------------------------------------------------------------ -/

/-- C9 (confirmed): the pair of tabular dumps for a query id is
persisted if and only if that id's summary row has `matched = false`
and both engine executions succeeded (so the failure was a shape/data
mismatch from classification) — never on a match, and never when the
failure was an execution error, whose handler appends a summary row but
writes no dumps. -/
theorem c9_artifact_iff_mismatch (env : QueryEnv) (q : Nat)
    (res : ValidationResult) (art : Option Artifact)
    (h : validateQuery env q = Except.ok (res, art)) :
    art.isSome = true ↔ (res.matched = false ∧ execsSucceeded env q = true) := by
  unfold validateQuery at h
  cases hf : env.fetchQuery q with
  | error e =>
    rw [hf] at h
    exact absurd h (by simp)
  | ok sql =>
    rw [hf] at h
    dsimp only at h
    cases hb : execBoth env sql with
    | error e =>
      rw [hb] at h
      dsimp only at h
      injection h with h2
      obtain ⟨rfl, rfl⟩ := Prod.mk.inj h2
      simp [execsSucceeded, hf, hb]
    | ok p =>
      obtain ⟨dfRef, dfDl⟩ := p
      rw [hb] at h
      dsimp only at h
      injection h with h2
      obtain ⟨rfl, rfl⟩ := Prod.mk.inj h2
      cases hcl : (classify dfRef dfDl).1 with
      | false => simp [execsSucceeded, hf, hb, hcl]
      | true => simp [execsSucceeded, hf, hb, hcl]

/-- Witness for C9: a column-order mismatch (both executions succeeded,
`matched = false`) does persist its pair of dumps. -/
theorem c9_artifact_iff_mismatch_witness :
    (some { qnum := 1, refDump := dfAB, lakeDump := dfBA } : Option Artifact).isSome = true ↔
      (false = false ∧ execsSucceeded envMismatch 1 = true) :=
  c9_artifact_iff_mismatch envMismatch 1
    { query := "Q01", matched := false, reason := "Column mismatch" }
    (some { qnum := 1, refDump := dfAB, lakeDump := dfBA }) rfl

/- ------------------------------------------------------------------
   C7 : machinery for evaluating the generated secret statement
   ------------------------------------------------------------------ -/

theorem replaceList_empty (pat rep : List Char) : replaceList pat rep [] = [] := by
  simp only [replaceList]

theorem replaceList_cons_pos (pat rep : List Char) (c : Char) (cs : List Char)
    (h : pat ≠ [] ∧ pat <+: (c :: cs)) :
    replaceList pat rep (c :: cs) =
      rep ++ replaceList pat rep (List.drop (pat.length - 1) cs) := by
  simp only [replaceList]
  rw [if_pos h]

theorem replaceList_cons_neg (pat rep : List Char) (c : Char) (cs : List Char)
    (h : ¬(pat ≠ [] ∧ pat <+: (c :: cs))) :
    replaceList pat rep (c :: cs) = c :: replaceList pat rep cs := by
  simp only [replaceList]
  rw [if_neg h]

theorem replaceList_append_skip (p' rep : List Char) :
    ∀ (pre l : List Char), '{' ∉ pre →
      replaceList ('{' :: p') rep (pre ++ l) = pre ++ replaceList ('{' :: p') rep l := by
  intro pre
  induction pre with
  | nil => intro l _; simp
  | cons c cs ih =>
    intro l h
    have hc : c ≠ '{' := by
      intro hcc
      exact h (hcc ▸ List.mem_cons_self c cs)
    have hcond : ¬(('{' :: p') ≠ [] ∧ ('{' :: p') <+: (c :: (cs ++ l))) := by
      rintro ⟨-, hp⟩
      exact hc (List.cons_prefix_cons.mp hp).1.symm
    rw [List.cons_append, replaceList_cons_neg _ _ _ _ hcond,
      ih l (fun hm => h (List.mem_cons_of_mem c hm))]
    simp

theorem replaceList_exact (pat rep l : List Char) (h : pat ≠ []) :
    replaceList pat rep (pat ++ l) = rep ++ replaceList pat rep l := by
  cases pat with
  | nil => exact absurd rfl h
  | cons a as =>
    have hcond : ((a :: as) ≠ [] ∧ (a :: as) <+: (a :: (as ++ l))) :=
      ⟨h, ⟨l, by simp⟩⟩
    rw [List.cons_append, replaceList_cons_pos _ _ _ _ hcond]
    congr 1
    have hlen : (a :: as).length - 1 = as.length := by simp
    rw [hlen, List.drop_left]

theorem replaceList_no_brace (p' rep l : List Char) (h : '{' ∉ l) :
    replaceList ('{' :: p') rep l = l := by
  have := replaceList_append_skip p' rep l [] h
  rw [List.append_nil] at this
  rw [this, replaceList_empty, List.append_nil]

theorem not_mem_replaceList (pat rep : List Char) (ch : Char) (hrep : ch ∉ rep) :
    ∀ l, ch ∉ l → ch ∉ replaceList pat rep l := by
  have key : ∀ n (l : List Char), l.length ≤ n → ch ∉ l → ch ∉ replaceList pat rep l := by
    intro n
    induction n with
    | zero =>
      intro l hl hc
      cases l with
      | nil => rw [replaceList_empty]; exact hc
      | cons a as => simp at hl
    | succ n ih =>
      intro l hl hc
      cases l with
      | nil => rw [replaceList_empty]; exact hc
      | cons a as =>
        have has : as.length ≤ n := by
          simp only [List.length_cons] at hl
          omega
        by_cases hcond : (pat ≠ [] ∧ pat <+: (a :: as))
        · rw [replaceList_cons_pos _ _ _ _ hcond]
          intro hmem
          rcases List.mem_append.mp hmem with hm | hm
          · exact hrep hm
          · have hlen : (List.drop (pat.length - 1) as).length ≤ n := by
              simp only [List.length_drop]
              omega
            have hnot : ch ∉ List.drop (pat.length - 1) as := fun hd =>
              hc (List.mem_cons_of_mem a (List.mem_of_mem_drop hd))
            exact ih _ hlen hnot hm
        · rw [replaceList_cons_neg _ _ _ _ hcond]
          intro hmem
          rcases List.mem_cons.mp hmem with hm | hm
          · exact hc (hm ▸ List.mem_cons_self a as)
          · exact ih as has (fun hx => hc (List.mem_cons_of_mem a hx)) hm
  intro l
  exact key l.length l (Nat.le_refl _)

theorem not_mem_stripScheme (e : String) (h : '{' ∉ e.data) :
    '{' ∉ (stripScheme e).data := by
  have h0 : '{' ∉ ("" : String).data := by decide
  unfold stripScheme pyReplace
  exact not_mem_replaceList _ _ _ h0 _ (not_mem_replaceList _ _ _ h0 _ h)

theorem sub_extend_left (s : String) {p t : String} (h : p.data <:+: t.data) :
    p.data <:+: (s ++ t).data := by
  obtain ⟨u, v, huv⟩ := h
  refine ⟨s.data ++ u, v, ?_⟩
  rw [String.data_append, ← huv]
  simp [List.append_assoc]

theorem sub_of_mem_joinSep (sep p : String) :
    ∀ parts : List String, p ∈ parts → p.data <:+: (joinSep sep parts).data := by
  intro parts
  induction parts with
  | nil => intro hp; cases hp
  | cons x xs ih =>
    intro hp
    cases xs with
    | nil =>
      have hx : p = x := by simpa using hp
      subst hx
      exact ⟨[], [], by simp [joinSep]⟩
    | cons y ys =>
      rcases List.mem_cons.mp hp with hx | hmem
      · subst hx
        refine ⟨[], (sep ++ joinSep sep (y :: ys)).data, ?_⟩
        show [] ++ p.data ++ (sep ++ joinSep sep (y :: ys)).data =
          (joinSep sep (p :: y :: ys)).data
        simp [joinSep, String.data_append, List.append_assoc]
      · exact sub_extend_left (x ++ sep) (ih hmem)

theorem formatName_eval (t name : String) (h : '{' ∉ t.data) :
    formatName ("CREATE OR REPLACE SECRET {name} (" ++ t) name =
      "CREATE OR REPLACE SECRET " ++ name ++ (" (" ++ t) := by
  apply String.ext
  show replaceList ("{name}").data name.data
      (("CREATE OR REPLACE SECRET {name} (" ++ t).data) =
    ("CREATE OR REPLACE SECRET " ++ name ++ (" (" ++ t)).data
  have hpat : ("{name}").data = '{' :: ['n', 'a', 'm', 'e', '}'] := by decide
  have hsplit : (("CREATE OR REPLACE SECRET {name} (" ++ t)).data =
      ("CREATE OR REPLACE SECRET ").data ++
        (('{' :: ['n', 'a', 'm', 'e', '}']) ++ ((" (").data ++ t.data)) := by
    rw [String.data_append]
    have hlit : ("CREATE OR REPLACE SECRET {name} (").data =
        ("CREATE OR REPLACE SECRET ").data ++ ('{' :: ['n', 'a', 'm', 'e', '}']) ++ (" (").data := by
      decide
    rw [hlit]
    simp [List.append_assoc]
  have hnb : '{' ∉ ((" (").data ++ t.data) := by
    intro hm
    rcases List.mem_append.mp hm with hm | hm
    · revert hm; decide
    · exact h hm
  rw [hpat, hsplit]
  rw [replaceList_append_skip _ _ _ _ (by decide)]
  rw [replaceList_exact _ _ _ (by simp)]
  rw [replaceList_no_brace _ _ _ hnb]
  simp [String.data_append, List.append_assoc]

/-- Evaluation of `create_secret_sql` for a config with truthy
credentials and brace-free fields (Python `str.format` would otherwise
rewrite or reject them): the placeholder is substituted and the
remaining lines are joined untouched. -/
theorem create_secret_sql_eval (st : StorageMinio) (name : String)
    (hak : pyTruthy st.access_key = true) (hsk : pyTruthy st.secret_key = true)
    (h1 : '{' ∉ (st.access_key.getD "").data) (h2 : '{' ∉ (st.secret_key.getD "").data)
    (h3 : '{' ∉ st.endpoint.data) (h4 : '{' ∉ st.url_style.data)
    (h5 : '{' ∉ st.region.data) :
    create_secret_sql st name =
      "CREATE OR REPLACE SECRET " ++ name ++
        (" (" ++ ("\n" ++ joinSep "\n" (secretTail st))) := by
  have hcond : (pyTruthy st.access_key && pyTruthy st.secret_key) = true := by
    rw [hak, hsk]
    rfl
  have hssl : '{' ∉ ((if st.use_ssl then "true" else "false") : String).data := by
    cases st.use_ssl <;> decide
  have hep : '{' ∉ (stripScheme st.endpoint).data := not_mem_stripScheme st.endpoint h3
  have l1 : '{' ∉ ("\n").data := by decide
  have l2 : '{' ∉ ("  TYPE S3,").data := by decide
  have l3 : '{' ∉ ("  KEY_ID '").data := by decide
  have l4 : '{' ∉ ("',").data := by decide
  have l5 : '{' ∉ ("  SECRET '").data := by decide
  have l6 : '{' ∉ ("  ENDPOINT '").data := by decide
  have l7 : '{' ∉ ("  URL_STYLE '").data := by decide
  have l8 : '{' ∉ ("  USE_SSL ").data := by decide
  have l9 : '{' ∉ (",").data := by decide
  have l10 : '{' ∉ ("  REGION '").data := by decide
  have l11 : '{' ∉ ("'").data := by decide
  have l12 : '{' ∉ (");").data := by decide
  have ht : '{' ∉ (("\n" ++ joinSep "\n" (secretTail st))).data := by
    simp [secretTail, joinSep, String.data_append, List.mem_append,
      l1, l2, l3, l4, l5, l6, l7, l8, l9, l10, l11, l12, h1, h2, h4, h5, hssl, hep]
  have harg2 : create_secret_sql st name =
      formatName ("CREATE OR REPLACE SECRET {name} (" ++
        ("\n" ++ joinSep "\n" (secretTail st))) name := by
    unfold create_secret_sql
    simp only [hcond, if_true, List.cons_append, List.nil_append]
    congr 1
  rw [harg2, formatName_eval _ _ ht]

set_option maxRecDepth 100000 in
/-- C7 (counterexample): the generated statement does NOT always contain
the endpoint with only a leading scheme prefix stripped — `str.replace`
removes every occurrence, so for the endpoint `"myhttp://host"` (which
has no leading scheme prefix and should appear unchanged under the
claim) the statement embeds `"myhost"` and the claimed substring is
absent. -/
theorem c7_secret_sql_counterexample :
    ¬ (("myhttp://host").data <:+: (create_secret_sql stScheme "minio").data) := by
  have hstrip : stripScheme "myhttp://host" = "myhost" := by
    simp +decide [stripScheme, pyReplace, replaceList]
  rw [create_secret_sql_eval stScheme "minio" (by decide) (by decide) (by decide)
    (by decide) (by decide) (by decide) (by decide)]
  simp only [secretTail, stScheme]
  rw [hstrip]
  decide

/-- C7 (amended): for every valid config with non-empty credentials
whose embedded fields contain no brace character (so that Python's
`str.format` performs plain substitution instead of raising on a stray
brace or rewriting a further placeholder), the generated create-secret
statement contains the configured endpoint with EVERY occurrence of
`http://` / `https://` removed — in particular any leading scheme
prefix is stripped — and the embedded TLS literal is exactly `true` or
`false` according to the flag. -/
theorem c7_secret_sql_amended (st : StorageMinio) (name : String)
    (hak : pyTruthy st.access_key = true) (hsk : pyTruthy st.secret_key = true)
    (h1 : braceFree (st.access_key.getD "")) (h2 : braceFree (st.secret_key.getD ""))
    (h3 : braceFree st.endpoint) (h4 : braceFree st.url_style)
    (h5 : braceFree st.region) :
    ("  ENDPOINT '" ++ stripScheme st.endpoint ++ "',").data <:+:
      (create_secret_sql st name).data ∧
    ("  USE_SSL " ++ (if st.use_ssl then "true" else "false") ++ ",").data <:+:
      (create_secret_sql st name).data := by
  rw [create_secret_sql_eval st name hak hsk h1.1 h2.1 h3.1 h4.1 h5.1]
  constructor
  · have hmem : ("  ENDPOINT '" ++ stripScheme st.endpoint ++ "',") ∈ secretTail st := by
      simp [secretTail]
    exact sub_extend_left _ (sub_extend_left _ (sub_extend_left _
      (sub_of_mem_joinSep "\n" _ (secretTail st) hmem)))
  · have hmem : ("  USE_SSL " ++ (if st.use_ssl then "true" else "false") ++ ",")
        ∈ secretTail st := by
      simp [secretTail]
    exact sub_extend_left _ (sub_extend_left _ (sub_extend_left _
      (sub_of_mem_joinSep "\n" _ (secretTail st) hmem)))

/-- Witness for C7's amended statement on the default config: the
`http://` prefix of `http://localhost:9000` is stripped and the TLS
flag `false` is embedded as the literal `false`. -/
theorem c7_secret_sql_amended_witness :
    ("  ENDPOINT '" ++ stripScheme "http://localhost:9000" ++ "',").data <:+:
      (create_secret_sql stFromKeys "minio").data ∧
    ("  USE_SSL false,").data <:+: (create_secret_sql stFromKeys "minio").data :=
  c7_secret_sql_amended stFromKeys "minio" rfl rfl (by decide) (by decide) (by decide)
    (by decide) (by decide)
